import Mathlib

/-!
Shallow embedding of `src/cf_dyndns.py`, a Cloudflare dynamic-DNS updater.

The script polls an IP-echo service, reads a DNS record, and issues an
update when the resolved IP differs from the published one.  Network
interactions are modelled by an oracle value per outbound call
(`HttpOutcome`), and each Python function becomes a pure Lean function of
the configuration and those oracles.  Python exceptions that the source
lets propagate are modelled with `Except`; call sites that swallow them
(returning `None`/`False`) return `Option`/`Bool` directly, as the source
does.
-/

/-- Outcome of one outbound HTTP call: either a transport-level exception
(the `requests` call raising) or a response carrying a status code and a
parsed body of type `β`. -/
inductive HttpOutcome (β : Type) where
  | transportError : HttpOutcome β
  | response (status : Nat) (body : β) : HttpOutcome β
deriving DecidableEq

/-- Configuration snapshot read from the environment at lines 26-35 of the
source.  For the optional string settings, `none` models an unset or empty
(hence falsy) environment variable; `recordType`, `ttl`, `proxied` and
`checkInterval` carry their parsed defaults ("A", 3600, false, 300) when
unset. -/
structure Config where
  cfApiToken : Option String
  zoneId : Option String
  dnsRecordId : Option String
  domainName : Option String
  recordType : String
  ttl : Nat
  proxied : Bool
  checkInterval : Nat
deriving DecidableEq

/-- Lines 38-48, `get_current_ip`: returns the response text on HTTP 200 and
raises otherwise (both the explicit `raise Exception` on a non-200 status
and a transport exception re-raised by the `except` block). -/
def get_current_ip (echo : HttpOutcome String) : Except String String :=
  match echo with
  | .response s body =>
      if s = 200 then .ok body
      else .error ("Failed to get IP: " ++ toString s)
  | .transportError => .error "Error getting current IP"

/-- Fields of the JSON object stored under the "result" key of a
record-read response body.  Each field is `none` when absent from the JSON
object; the source only ever reads `content` (line 171), the other fields
record what the provider returned so that claims can refer to them. -/
structure RecordObj where
  content : Option String
  name : Option String
  type : Option String
  ttl : Option Nat
  proxied : Option Bool
deriving DecidableEq

/-- Value of the "result" key in a record-read JSON body: the key can be
absent, hold JSON null, or hold an object. -/
inductive ResultField where
  | absent : ResultField
  | null : ResultField
  | obj (r : RecordObj) : ResultField
deriving DecidableEq

/-- Parsed JSON body of a record-read response: the "result" key plus a
flag recording whether any other keys ("success", "errors", ...) are
present, which is what Python dict truthiness depends on. -/
structure ReadBody where
  result : ResultField
  otherKeys : Bool
deriving DecidableEq

/-- Python truthiness of the parsed body dict: truthy iff non-empty. -/
def ReadBody.isTruthy (b : ReadBody) : Bool :=
  match b.result with
  | .absent => b.otherKeys
  | _ => true

/-- Lines 100-119, `get_cloudflare_dns_record`: returns the parsed JSON on
HTTP 200 and `None` on any other status or transport error (both logged and
swallowed). -/
def get_cloudflare_dns_record (resp : HttpOutcome ReadBody) : Option ReadBody :=
  match resp with
  | .response s body => if s = 200 then some body else none
  | .transportError => none

/-- Line 171, `dns_record.get("result", ...).get("content")` with an empty
dict as default: yields `none` when "result" is absent or lacks "content",
yields the content string when present, and raises AttributeError when the
"result" key holds JSON null (the default is not used for a present key, so
`.get("content")` is called on `None`). -/
def extract_cf_ip (b : ReadBody) : Except String (Option String) :=
  match b.result with
  | .absent => .ok none
  | .null => .error "AttributeError"
  | .obj r => .ok r.content

/-- Request body built at lines 129-135 of `update_cloudflare_dns_record`.
`name` is `Option String` because `DOMAIN_NAME` may be unset, in which case
the JSON carries null. -/
structure UpdateData where
  type : String
  name : Option String
  content : String
  ttl : Nat
  proxied : Bool
deriving DecidableEq

/-- The update request body as a function of the configuration and the IP
being written (lines 129-135). -/
def updateData (cfg : Config) (current_ip : String) : UpdateData :=
  { type := cfg.recordType
    name := cfg.domainName
    content := current_ip
    ttl := cfg.ttl
    proxied := cfg.proxied }

/-- Parsed JSON body of an update response: only the truthiness of its
"success" key is inspected (line 141). -/
structure UpdateBody where
  success : Bool
deriving DecidableEq

/-- Log line emitted by `update_cloudflare_dns_record`, one constructor per
branch (lines 142, 145, 148-150, 153). -/
inductive UpdateLog where
  | successLog (ip : String) : UpdateLog
  | apiSuccessFalse : UpdateLog
  | httpFailure (status : Nat) : UpdateLog
  | transportFailure : UpdateLog
deriving DecidableEq

/-- Lines 122-154, `update_cloudflare_dns_record`: returns `True` only on
HTTP 200 with a truthy "success", `False` otherwise, together with the log
line the branch emits. -/
def update_cloudflare_dns_record (current_ip : String)
    (resp : HttpOutcome UpdateBody) : Bool × UpdateLog :=
  match resp with
  | .response s body =>
      if s = 200 then
        if body.success then (true, .successLog current_ip)
        else (false, .apiSuccessFalse)
      else (false, .httpFailure s)
  | .transportError => (false, .transportFailure)

/-- Network oracles for one pass of `check_and_update`: the IP-echo
response, the record-read response, and the update response (consulted only
if the corresponding call is reached). -/
structure PassEnv where
  echo : HttpOutcome String
  readResp : HttpOutcome ReadBody
  updateResp : HttpOutcome UpdateBody
deriving DecidableEq

/-- Observable trace of one pass: how many record-read calls and which
update calls (with their bodies) were issued, and whether the catch-all at
lines 186-187 fired. -/
structure PassTrace where
  readCalls : Nat
  updateCalls : List UpdateData
  errorCaught : Bool
deriving DecidableEq

/-- Body of the `try` block of `check_and_update` (lines 159-184).  An
`Except.error` models an exception propagating out of the block and carries
the trace of calls issued before the raise. -/
def check_and_update_inner (cfg : Config) (env : PassEnv) :
    Except (String × PassTrace) PassTrace :=
  match get_current_ip env.echo with
  | .error e => .error (e, { readCalls := 0, updateCalls := [], errorCaught := false })
  | .ok current_ip =>
    match get_cloudflare_dns_record env.readResp with
    | none => .ok { readCalls := 1, updateCalls := [], errorCaught := false }
    | some dns_record =>
      if dns_record.isTruthy then
        match extract_cf_ip dns_record with
        | .error e =>
            .error (e, { readCalls := 1, updateCalls := [], errorCaught := false })
        | .ok cf_ip =>
          if cf_ip ≠ some current_ip then
            .ok { readCalls := 1
                  updateCalls := [updateData cfg current_ip]
                  errorCaught := false }
          else
            .ok { readCalls := 1, updateCalls := [], errorCaught := false }
      else
        .ok { readCalls := 1, updateCalls := [], errorCaught := false }

/-- Lines 157-187, `check_and_update`: the try block with the catch-all
`except` at the pass boundary, which logs and returns normally. -/
def check_and_update (cfg : Config) (env : PassEnv) : PassTrace :=
  match check_and_update_inner cfg env with
  | .error (_, t) => { t with errorCaught := true }
  | .ok t => t

/-- Parsed JSON body of a list-records response (`get_dns_record_id`):
truthiness of "success", and the "result" key as an optional list of the
returned records' ids (`none` models the key absent or null; line 82 reads
only the first entry's id). -/
structure ListBody where
  success : Bool
  result : Option (List String)
deriving DecidableEq

/-- Lines 51-97, `get_dns_record_id`: on HTTP 200 with truthy "success" and
a non-empty "result" list, returns the first record's id; on an empty or
missing list, a falsy "success", a non-200 status, or a transport error it
logs and returns `None`. -/
def get_dns_record_id (resp : HttpOutcome ListBody) : Option String :=
  match resp with
  | .response s body =>
      if s = 200 then
        if body.success then
          match body.result with
          | some (rid :: _) => some rid
          | _ => none
        else none
      else none
  | .transportError => none

/-- How a run of `main` (lines 190-241) leaves the startup phase. -/
inductive StartupResult where
  | missingVars (vars : List String) : StartupResult
  | missingBoth : StartupResult
  | discoveryFailed : StartupResult
  | enterLoop (recordId : String) : StartupResult
deriving DecidableEq

/-- Observable trace of the startup phase: its result and how many
record-discovery (list-records) calls were issued. -/
structure StartupTrace where
  result : StartupResult
  discoveryCalls : Nat
deriving DecidableEq

/-- Lines 190-232 of `main`: the required-variable check, then the lazy
resolution of the record id via `get_dns_record_id` when `DNS_RECORD_ID`
is unset, each failure returning before the loop.  `listResp` is the oracle
for the discovery call. -/
def main_startup (cfg : Config) (listResp : HttpOutcome ListBody) :
    StartupTrace :=
  let missing : List String :=
    (if cfg.cfApiToken = none then ["CLOUDFLARE_API_TOKEN"] else []) ++
    (if cfg.zoneId = none then ["ZONE_ID"] else [])
  if missing ≠ [] then
    { result := .missingVars missing, discoveryCalls := 0 }
  else
    match cfg.dnsRecordId with
    | some rid => { result := .enterLoop rid, discoveryCalls := 0 }
    | none =>
      match cfg.domainName with
      | none => { result := .missingBoth, discoveryCalls := 0 }
      | some _ =>
        match get_dns_record_id listResp with
        | none => { result := .discoveryFailed, discoveryCalls := 1 }
        | some rid => { result := .enterLoop rid, discoveryCalls := 1 }

/-- Lines 234-237, the reconcile loop: the traces of the first `n` passes,
one per tick, each pass given its own oracles (`envs k` for pass `k`).
`check_and_update` returns normally on every input, so the loop always
reaches the next pass. -/
def run_loop (cfg : Config) (envs : Nat → PassEnv) : Nat → List PassTrace
  | 0 => []
  | n + 1 => run_loop cfg envs n ++ [check_and_update cfg (envs n)]

/-! Concrete configurations, bodies and environments used by witnesses and
counterexamples. -/

/-- Fully-populated configuration: record id and domain name both set, with
the source's defaults for record type, ttl, proxied and interval. -/
def cfgW : Config :=
  { cfApiToken := some "token"
    zoneId := some "zone"
    dnsRecordId := some "abc123"
    domainName := some "host.example.com"
    recordType := "A"
    ttl := 3600
    proxied := false
    checkInterval := 300 }

/-- Record object as the provider would return it, published IP 1.2.3.3. -/
def recordW : RecordObj :=
  { content := some "1.2.3.3"
    name := some "host.example.com"
    type := some "A"
    ttl := some 3600
    proxied := some false }

/-- Read body whose record carries a published IP different from 1.2.3.4. -/
def bodyChanged : ReadBody := { result := .obj recordW, otherKeys := true }

/-- Environment for a pass where the IP changed: echo 1.2.3.4, record read
succeeds with published IP 1.2.3.3. -/
def envChanged : PassEnv :=
  { echo := .response 200 "1.2.3.4"
    readResp := .response 200 bodyChanged
    updateResp := .response 200 { success := true } }

/-- Read body whose record already publishes 1.2.3.4. -/
def bodySame : ReadBody :=
  { result := .obj { recordW with content := some "1.2.3.4" }
    otherKeys := true }

/-- Environment for a pass where the IP is unchanged. -/
def envSame : PassEnv :=
  { echo := .response 200 "1.2.3.4"
    readResp := .response 200 bodySame
    updateResp := .response 200 { success := true } }

/-- Environment whose IP-echo call fails at the transport level. -/
def envEchoFail : PassEnv :=
  { echo := .transportError
    readResp := .response 200 bodyChanged
    updateResp := .response 200 { success := true } }

/-- Environment whose record-read call fails at the transport level. -/
def envReadFail : PassEnv :=
  { echo := .response 200 "1.2.3.4"
    readResp := .transportError
    updateResp := .response 200 { success := true } }

/-- C1: in a pass where the resolved public IP differs from the published
IP extracted from the read record, exactly one update call is issued, and
its body carries content = the resolved IP together with the
configuration's record type, domain name, ttl and proxied flag. -/
theorem C1_update_on_change (cfg : Config) (env : PassEnv) (ip : String)
    (body : ReadBody) (cf_ip : Option String)
    (hip : get_current_ip env.echo = .ok ip)
    (hrd : get_cloudflare_dns_record env.readResp = some body)
    (htr : body.isTruthy = true)
    (hex : extract_cf_ip body = .ok cf_ip)
    (hne : cf_ip ≠ some ip) :
    (check_and_update cfg env).updateCalls = [updateData cfg ip] ∧
    (updateData cfg ip).content = ip ∧
    (updateData cfg ip).type = cfg.recordType ∧
    (updateData cfg ip).name = cfg.domainName ∧
    (updateData cfg ip).ttl = cfg.ttl ∧
    (updateData cfg ip).proxied = cfg.proxied := by
  refine ⟨?_, rfl, rfl, rfl, rfl, rfl⟩
  unfold check_and_update check_and_update_inner
  rw [hip, hrd]
  simp [htr, hex, hne]

/-- Witness for C1 at a concrete pass: echo 1.2.3.4 against published
1.2.3.3 issues exactly the update [updateData cfgW "1.2.3.4"]. -/
theorem C1_update_on_change_witness :
    (check_and_update cfgW envChanged).updateCalls = [updateData cfgW "1.2.3.4"] ∧
    (updateData cfgW "1.2.3.4").content = "1.2.3.4" ∧
    (updateData cfgW "1.2.3.4").type = cfgW.recordType ∧
    (updateData cfgW "1.2.3.4").name = cfgW.domainName ∧
    (updateData cfgW "1.2.3.4").ttl = cfgW.ttl ∧
    (updateData cfgW "1.2.3.4").proxied = cfgW.proxied :=
  C1_update_on_change cfgW envChanged "1.2.3.4" bodyChanged (some "1.2.3.3")
    rfl rfl rfl rfl (by decide)

/-- C2: in a pass where the resolved public IP equals the published IP
extracted from the read record, no update call is issued. -/
theorem C2_no_update_when_unchanged (cfg : Config) (env : PassEnv)
    (ip : String) (body : ReadBody)
    (hip : get_current_ip env.echo = .ok ip)
    (hrd : get_cloudflare_dns_record env.readResp = some body)
    (hex : extract_cf_ip body = .ok (some ip)) :
    (check_and_update cfg env).updateCalls = [] := by
  unfold check_and_update check_and_update_inner
  rw [hip, hrd]
  rcases htr : body.isTruthy with _ | _ <;> simp [htr, hex]

/-- Witness for C2 at a concrete pass: echo 1.2.3.4 against published
1.2.3.4 issues no update call. -/
theorem C2_no_update_when_unchanged_witness :
    (check_and_update cfgW envSame).updateCalls = [] :=
  C2_no_update_when_unchanged cfgW envSame "1.2.3.4" bodySame rfl rfl rfl

/-- C3: in a pass where the IP-echo call fails (transport error or any
non-200 status), neither the record-read call nor the update call occurs. -/
theorem C3_echo_failure_no_calls (cfg : Config) (env : PassEnv)
    (h : env.echo = .transportError ∨
         ∃ s b, env.echo = .response s b ∧ s ≠ 200) :
    (check_and_update cfg env).readCalls = 0 ∧
    (check_and_update cfg env).updateCalls = [] := by
  unfold check_and_update check_and_update_inner
  rcases h with h | ⟨s, b, h, hs⟩
  · rw [h]; simp [get_current_ip]
  · rw [h]; simp [get_current_ip, hs]

/-- Witness for C3 at a concrete pass whose echo call raises. -/
theorem C3_echo_failure_no_calls_witness :
    (check_and_update cfgW envEchoFail).readCalls = 0 ∧
    (check_and_update cfgW envEchoFail).updateCalls = [] :=
  C3_echo_failure_no_calls cfgW envEchoFail (Or.inl rfl)

/-- C4: in a pass where the record-read call fails (the record client
returns None), no update call occurs. -/
theorem C4_read_failure_no_update (cfg : Config) (env : PassEnv)
    (hrd : get_cloudflare_dns_record env.readResp = none) :
    (check_and_update cfg env).updateCalls = [] := by
  unfold check_and_update check_and_update_inner
  cases hip : get_current_ip env.echo with
  | error e => rfl
  | ok ip => rw [hrd]

/-- Witness for C4 at a concrete pass whose read call raises. -/
theorem C4_read_failure_no_update_witness :
    (check_and_update cfgW envReadFail).updateCalls = [] :=
  C4_read_failure_no_update cfgW envReadFail rfl

/-- Configuration with no record id and no domain name (token and zone
present). -/
def cfgNoRidNoDomain : Config :=
  { cfgW with dnsRecordId := none, domainName := none }

/-- List-records response whose filtered list is empty. -/
def listRespEmpty : HttpOutcome ListBody :=
  .response 200 { success := true, result := some [] }

/-- C5: with the configured record identifier absent, startup requires a
domain name and invokes record discovery; if the domain name is absent, or
discovery yields no identifier, no reconcile loop is entered; the loop is
entered only with an identifier obtained from discovery. -/
theorem C5_startup_discovery_guard (cfg : Config) (resp : HttpOutcome ListBody)
    (hrid : cfg.dnsRecordId = none) :
    (cfg.domainName = none →
       ∀ r, (main_startup cfg resp).result ≠ .enterLoop r) ∧
    (get_dns_record_id resp = none →
       ∀ r, (main_startup cfg resp).result ≠ .enterLoop r) ∧
    (cfg.cfApiToken ≠ none → cfg.zoneId ≠ none → cfg.domainName ≠ none →
       (main_startup cfg resp).discoveryCalls = 1) ∧
    (∀ r, (main_startup cfg resp).result = .enterLoop r →
       get_dns_record_id resp = some r) := by
  unfold main_startup
  rcases htok : cfg.cfApiToken with _ | t <;>
    rcases hz : cfg.zoneId with _ | z <;>
    rcases hd : cfg.domainName with _ | d <;>
    rcases hdisc : get_dns_record_id resp with _ | rid <;>
    simp [hrid, htok, hz, hd, hdisc]

/-- Witness for C5: record id and domain name both absent aborts before the
loop, among the other conjuncts at this concrete configuration. -/
theorem C5_startup_discovery_guard_witness :
    (cfgNoRidNoDomain.domainName = none →
       ∀ r, (main_startup cfgNoRidNoDomain listRespEmpty).result ≠ .enterLoop r) ∧
    (get_dns_record_id listRespEmpty = none →
       ∀ r, (main_startup cfgNoRidNoDomain listRespEmpty).result ≠ .enterLoop r) ∧
    (cfgNoRidNoDomain.cfApiToken ≠ none → cfgNoRidNoDomain.zoneId ≠ none →
       cfgNoRidNoDomain.domainName ≠ none →
       (main_startup cfgNoRidNoDomain listRespEmpty).discoveryCalls = 1) ∧
    (∀ r, (main_startup cfgNoRidNoDomain listRespEmpty).result = .enterLoop r →
       get_dns_record_id listRespEmpty = some r) :=
  C5_startup_discovery_guard cfgNoRidNoDomain listRespEmpty rfl

/-- C6: record discovery returns the first identifier of the provider's
filtered list exactly when the call came back 200 with a successful body
and a non-empty list; on an empty or missing list, a falsy success flag, a
non-200 status, or a transport error it returns none. -/
theorem C6_discovery_first_match (resp : HttpOutcome ListBody) :
    (∀ rid, get_dns_record_id resp = some rid ↔
       ∃ body rest, resp = .response 200 body ∧ body.success = true ∧
         body.result = some (rid :: rest)) ∧
    (∀ body, resp = .response 200 body →
       (body.success = false ∨ body.result = none ∨ body.result = some []) →
       get_dns_record_id resp = none) ∧
    (∀ s body, resp = .response s body → s ≠ 200 →
       get_dns_record_id resp = none) ∧
    (resp = .transportError → get_dns_record_id resp = none) := by
  rcases resp with _ | ⟨s, body⟩
  · simp [get_dns_record_id]
  · by_cases hs : s = 200
    · subst hs
      rcases hsucc : body.success with _ | _
      · simp [get_dns_record_id, hsucc]
      · rcases hres : body.result with _ | l
        · simp [get_dns_record_id, hsucc, hres]
        · rcases l with _ | ⟨rid, rest⟩ <;>
            simp [get_dns_record_id, hsucc, hres]
    · simp [get_dns_record_id, hs]

/-- C7: the update operation returns failure on any non-200 status and on
transport error, returns failure on a 200 whose body reports success=false,
returns success exactly on a 200 whose body reports success=true, and the
logical-failure log line differs from the HTTP/transport-failure ones. -/
theorem C7_update_failure_modes (ip : String) (resp : HttpOutcome UpdateBody) :
    ((update_cloudflare_dns_record ip resp).1 = true ↔
       ∃ body, resp = .response 200 body ∧ body.success = true) ∧
    (∀ s body, resp = .response s body → s ≠ 200 →
       update_cloudflare_dns_record ip resp = (false, .httpFailure s)) ∧
    (resp = .transportError →
       update_cloudflare_dns_record ip resp = (false, .transportFailure)) ∧
    (∀ body, resp = .response 200 body → body.success = false →
       update_cloudflare_dns_record ip resp = (false, .apiSuccessFalse)) ∧
    (∀ s, UpdateLog.apiSuccessFalse ≠ UpdateLog.httpFailure s ∧
       UpdateLog.apiSuccessFalse ≠ UpdateLog.transportFailure) := by
  rcases resp with _ | ⟨s, body⟩
  · simp [update_cloudflare_dns_record]
  · by_cases hs : s = 200
    · subst hs
      rcases hsucc : body.success with _ | _ <;>
        simp [update_cloudflare_dns_record, hsucc]
    · simp [update_cloudflare_dns_record, hs]

/-- Configuration of the C8 scenario: record id "abc123" set, domain name
absent, source defaults elsewhere. -/
def cfgNoDomain : Config := { cfgW with domainName := none }

/-- Environment of the C8 scenario: echo 1.2.3.4, read returns a record
named "host.example.com" publishing 1.2.3.3. -/
def envNoDomain : PassEnv :=
  { echo := .response 200 "1.2.3.4"
    readResp := .response 200 bodyChanged
    updateResp := .response 200 { success := true } }

/-- C8 counterexample: in the claim's scenario (record id set, domain
absent, echo 1.2.3.4, read content 1.2.3.3) an update is issued, but its
name field is none (JSON null, from the absent DOMAIN_NAME), not the read
record's name "host.example.com": the record's other fields are not left
unchanged by the update body. -/
theorem C8_counterexample :
    (check_and_update cfgNoDomain envNoDomain).updateCalls.map
        UpdateData.name = [none] ∧
    recordW.name = some "host.example.com" ∧
    ¬ ((check_and_update cfgNoDomain envNoDomain).updateCalls.map
        UpdateData.name = [recordW.name]) := by
  refine ⟨rfl, rfl, ?_⟩
  intro h
  simp [check_and_update, check_and_update_inner, get_current_ip,
    get_cloudflare_dns_record, extract_cf_ip, bodyChanged, recordW,
    cfgNoDomain, cfgW, envNoDomain, updateData, ReadBody.isTruthy] at h

/-- C8 amended: in the scenario the update call is issued with content
1.2.3.4, and its other fields come from the configuration - type "A",
name none (the absent domain name, serialized as JSON null), ttl 3600,
proxied false - rather than being preserved from the read record. -/
theorem C8_update_fields_from_config :
    (check_and_update cfgNoDomain envNoDomain).updateCalls =
      [{ type := "A", name := none, content := "1.2.3.4", ttl := 3600,
         proxied := false }] := by
  rfl

/-- Helper: the loop executes exactly `n` passes in `n` ticks. -/
theorem run_loop_length (cfg : Config) (envs : Nat → PassEnv) (n : Nat) :
    (run_loop cfg envs n).length = n := by
  induction n with
  | zero => rfl
  | succ n ih => simp [run_loop, ih]

/-- C9: a pass whose body raises is caught at the pass boundary
(`errorCaught` set in its trace and a normal return), the loop
unconditionally appends pass n's trace and proceeds to pass n+1, and after
n ticks exactly n passes have run - no single failed network interaction
stops the loop. -/
theorem C9_errors_swallowed_loop_continues (cfg : Config)
    (envs : Nat → PassEnv) (n : Nat) :
    run_loop cfg envs (n + 1) =
      run_loop cfg envs n ++ [check_and_update cfg (envs n)] ∧
    (∀ e t, check_and_update_inner cfg (envs n) = .error (e, t) →
       check_and_update cfg (envs n) = { t with errorCaught := true }) ∧
    (run_loop cfg envs n).length = n := by
  refine ⟨rfl, ?_, run_loop_length cfg envs n⟩
  intro e t h
  unfold check_and_update
  rw [h]

/-- Read body of a realistic provider error response: the "result" key
holds JSON null and other keys ("success": false, "errors", ...) are
present. -/
def bodyNullResult : ReadBody := { result := .null, otherKeys := true }

/-- Environment whose read returns HTTP 200 with `bodyNullResult`. -/
def envNullResult : PassEnv :=
  { echo := .response 200 "9.9.9.9"
    readResp := .response 200 bodyNullResult
    updateResp := .response 200 { success := true } }

/-- C10 counterexample: a 200 read whose body lacks result.content because
the "result" key holds JSON null (as in a provider error body reporting
success=false) does not lead to an update: the content extraction raises
(AttributeError on None), the pass-boundary catch fires, and no update
call is issued, contrary to the claim. -/
theorem C10_counterexample :
    (check_and_update cfgW envNullResult).updateCalls = [] ∧
    (check_and_update cfgW envNullResult).errorCaught = true :=
  ⟨rfl, rfl⟩

/-- C10 amended: when the read returns HTTP 200 and the body is a
non-empty object whose "result" key is absent, or whose "result" object
lacks "content", the pass proceeds with published IP None and, the
resolved IP differing from None, issues an update with the resolved IP
(when "result" is present but null the extraction instead raises and the
pass ends with no update, and an empty body is treated as a failed
read). -/
theorem C10_update_on_missing_content (cfg : Config) (env : PassEnv)
    (ip : String) (body : ReadBody)
    (hip : get_current_ip env.echo = .ok ip)
    (hrd : get_cloudflare_dns_record env.readResp = some body)
    (hres : (body.result = .absent ∧ body.otherKeys = true) ∨
            ∃ r, body.result = .obj r ∧ r.content = none) :
    (check_and_update cfg env).updateCalls = [updateData cfg ip] := by
  unfold check_and_update check_and_update_inner
  rw [hip, hrd]
  rcases hres with ⟨h1, h2⟩ | ⟨r, h1, h2⟩
  · simp [ReadBody.isTruthy, h1, h2, extract_cf_ip]
  · simp [ReadBody.isTruthy, h1, h2, extract_cf_ip]

/-- Read body with the "result" key absent but other keys present. -/
def bodyNoResult : ReadBody := { result := .absent, otherKeys := true }

/-- Environment whose read returns HTTP 200 with `bodyNoResult`. -/
def envNoResult : PassEnv :=
  { echo := .response 200 "9.9.9.9"
    readResp := .response 200 bodyNoResult
    updateResp := .response 200 { success := true } }

/-- Witness for the amended C10: with "result" absent and other keys
present, the pass issues the update with the resolved IP. -/
theorem C10_update_on_missing_content_witness :
    (check_and_update cfgW envNoResult).updateCalls =
      [updateData cfgW "9.9.9.9"] :=
  C10_update_on_missing_content cfgW envNoResult "9.9.9.9" bodyNoResult
    rfl rfl (Or.inl ⟨rfl, rfl⟩)
